import Mathlib

/-!
Shallow embedding of the `neuroplay-alt-sdk` streaming pipeline
(`src/neuroplay_alt_sdk/native/...`), covering:

* the BLE packet decoder (`AbstractNeuroPlayDevice.packet_handler`);
* device-descriptor construction (`AbstractNeuroPlayDevice.__init__`);
* connection topology checks (`AbstractNeuroPlayDevice.connect`);
* channel validation (`NeuroPlayDevice`);
* the sample-rate synchronizer (`DataSynchronizer`);
* the recording coordinator (`EDFCreator`) and the CSV staging writers.

Python floats are modelled as exact rationals (`ℚ`), Python ints as `ℤ`/`ℕ`,
byte strings as lists of naturals `< 256`, and raised exceptions as
`Except PyErr`.
-/

namespace NeuroPlay

/-- Exception kinds raised (or specified to be raised) by the SDK.
`runtimeError` and `attributeError` are Python built-ins; `bleakError` stands
for the BLE transport failures of the `bleak` library.
`notValidDevice` models `NeuroPlayExceptionNotValidDevice`; `missingService`
and `missingCharacteristic` are Modelled from the spec: the repository's
`exceptions` module is referenced (`native/__init__.py` re-exports it) but its
source file is absent, so its error classes are taken from spec §7. -/
inductive PyErr where
  | runtimeError (msg : String)
  | attributeError (name : String)
  | assertionError
  | bleakError
  | notValidDevice
  | missingService
  | missingCharacteristic
deriving DecidableEq, Repr

deriving instance DecidableEq for Except

/-! ## Packet decoding (`abstract_neuroplay_device.py`, `packet_handler`) -/

/-- `self.__MAGIC_MICROVOLTS_BIT = 0.000186265`, as an exact rational. -/
def MAGIC_MICROVOLTS_BIT : ℚ := 186265 / 1000000000

/-- A BLE packet: a byte string, each byte a natural number `< 256`. -/
abbrev Packet := List ℕ

/-- Python `int.from_bytes([b0, b1, b2, b3], byteorder='big', signed=True)`:
big-endian 32-bit two's-complement read of four bytes. -/
def intFromBytes4BE (b0 b1 b2 b3 : ℕ) : ℤ :=
  if 2 ^ 31 ≤ ((b0 * 256 + b1) * 256 + b2) * 256 + b3 then
    ((((b0 * 256 + b1) * 256 + b2) * 256 + b3 : ℕ) : ℤ) - 2 ^ 32
  else ((((b0 * 256 + b1) * 256 + b2) * 256 + b3 : ℕ) : ℤ)

/-- The signed integer the decoder extracts for slot `j` of a packet:
`int.from_bytes(packet[offset:offset + 3] + bytes([0x00]), byteorder='big',
signed=True)` with `offset = 2 + j * 3`.  Out-of-range indexing is defaulted
to byte `0`; the theorems assume 20-byte packets where it never happens. -/
def decodeSampleInt (p : Packet) (j : ℕ) : ℤ :=
  intFromBytes4BE (p.getD (2 + 3 * j) 0) (p.getD (2 + 3 * j + 1) 0)
    (p.getD (2 + 3 * j + 2) 0) 0

/-- The scaled sample value: the extracted integer times
`self.__MAGIC_MICROVOLTS_BIT`. -/
def decodeSample (p : Packet) (j : ℕ) : ℚ :=
  (decodeSampleInt p j : ℚ) * MAGIC_MICROVOLTS_BIT

/-- The 24-element `raw_sample_values_array`: for packet index `i` and slot
`j ∈ [0,6)`, position `i * 6 + j` holds `decodeSample packetᵢ j`
(the source's double loop over `enumerate(self.__packets_list)` and
`range(6)`). -/
def rawSampleValues (packets : List Packet) : List ℚ :=
  packets.flatMap (fun p => (List.range 6).map (fun j => decodeSample p j))

/-- `raw_sample_values_array.reshape(3, 8)`: row-major 3×8 matrix. -/
def reshape3x8 (vals : List ℚ) : List (List ℚ) :=
  [vals.take 8, (vals.drop 8).take 8, (vals.drop 16).take 8]

/-- `np.delete(m, idxs, axis=1)`: remove the columns whose (0-based) index is
in `idxs` from every row. -/
def deleteCols (idxs : List ℕ) (m : List (List ℚ)) : List (List ℚ) :=
  m.map (fun row => ((row.enum.filter (fun p => p.1 ∉ idxs)).map Prod.snd))

/-- `NeuroPlayDevicesEnum` (`enums/neuroplay_devices_enum.py`). -/
inductive NeuroPlayDevicesEnum where
  | ALL
  | NEUROPLAY_6C
  | NEUROPLAY_8CAP
  | UNDEFINED
deriving DecidableEq, Repr

/-- The `value` of each enum member. -/
def NeuroPlayDevicesEnum.value : NeuroPlayDevicesEnum → String
  | .ALL => "NeuroPlay"
  | .NEUROPLAY_6C => "NeuroPlay-6C"
  | .NEUROPLAY_8CAP => "NeuroPlay-8Cap"
  | .UNDEFINED => ""

/-- `NeuroPlayDevicesEnum.from_string`: scan the members in declaration order
for one whose `value` equals the argument, defaulting to `__UNDEFINED`. -/
def NeuroPlayDevicesEnum.from_string (s : String) : NeuroPlayDevicesEnum :=
  if s = "NeuroPlay" then .ALL
  else if s = "NeuroPlay-6C" then .NEUROPLAY_6C
  else if s = "NeuroPlay-8Cap" then .NEUROPLAY_8CAP
  else .UNDEFINED

/-- The model-specific channel removal of `packet_handler`
(`match self.__type: ... np.delete(samples_packets, [6, 1], axis=1)`).
`none` models the `assert_never` branch (an `AssertionError` at runtime),
which is unreachable for the two constructible device models. -/
def demuxChannels (ty : NeuroPlayDevicesEnum) (m : List (List ℚ)) :
    Option (List (List ℚ)) :=
  match ty with
  | .NEUROPLAY_6C => some (deleteCols [6, 1] m)
  | .NEUROPLAY_8CAP => some m
  | _ => none

/-- One step of `AbstractNeuroPlayDevice.packet_handler`: append the arriving
packet to `self.__packets_list`; return unless the FIFO holds exactly
`__QUEUE_SIZE = 4` packets; if the first packet's `byte0 & 0x03` is nonzero,
pop the front packet; otherwise decode the frame, demultiplex channels, emit
the three sample rows, and clear the FIFO.  The result is the new FIFO and
the list of rows handed to the sample handlers (`none` models the
`assert_never` `AssertionError`). -/
def packet_handler (ty : NeuroPlayDevicesEnum) (fifo : List Packet)
    (p : Packet) : Option (List Packet × List (List ℚ)) :=
  let fifo2 := fifo ++ [p]
  if fifo2.length ≠ 4 then some (fifo2, [])
  else if (fifo2.headD []).getD 0 0 &&& 0x03 ≠ 0 then some (fifo2.drop 1, [])
  else
    match demuxChannels ty (reshape3x8 (rawSampleValues fifo2)) with
    | some rows => some ([], rows)
    | none => none

/-! ## Device descriptor construction (`AbstractNeuroPlayDevice.__init__`) -/

/-- Python `\d` on the ASCII digits (the advertisement names at issue are
ASCII). -/
def isPyDigit (c : Char) : Bool := '0' ≤ c && c ≤ '9'

/-- Python `\s` on the ASCII whitespace characters. -/
def isPySpace (c : Char) : Bool :=
  c = ' ' || c = '\t' || c = '\n' || c = '\r' || c = '\x0b' || c = '\x0c'

/-- `re.fullmatch(r'(.+)\s\((\d+)\)$', name)`, on the reversed character
list.  The pattern forces a unique split: the final character must be `)`;
group 2 is the (necessarily maximal) nonempty run of digits before it; the
character before that run must be `(`, preceded by one whitespace character;
group 1 is the remaining nonempty prefix, in which `.` forbids a newline.
Returns `(group 1, group 2)` un-reversed. -/
def fullmatchNameRev (rev : List Char) : Option (List Char × List Char) :=
  match rev with
  | ')' :: rest =>
    let digitsRev := rest.takeWhile isPyDigit
    match rest.dropWhile isPyDigit with
    | '(' :: w :: modelRev =>
      if digitsRev ≠ [] ∧ isPySpace w ∧ modelRev ≠ [] ∧ '\n' ∉ modelRev then
        some (modelRev.reverse, digitsRev.reverse)
      else none
    | _ => none
  | _ => none

/-- `re.fullmatch(r'(.+)\s\((\d+)\)$', name)` as `(group(1), group(2))`. -/
def parseDeviceName (s : String) : Option (String × String) :=
  (fullmatchNameRev s.data.reverse).map (fun p => (⟨p.1⟩, ⟨p.2⟩))

/-- A Python scalar value, distinguishing `int` from `str` (the `id`
attribute of the device is annotated `int` but assigned `match.group(2)`,
a `str`). -/
inductive PyScalar where
  | int (n : ℤ)
  | str (s : String)
deriving DecidableEq, Repr

/-- The device-descriptor fields set by `AbstractNeuroPlayDevice.__init__`
that the claims mention. -/
structure AbstractNeuroPlayDevice where
  full_name : String
  name : String
  type : NeuroPlayDevicesEnum
  id : PyScalar
  channels_names : List String
deriving DecidableEq, Repr

/-- `AbstractNeuroPlayDevice.__init__` restricted to its pure part: match the
full name against `(.+)\s\((\d+)\)$` (raising
`NeuroPlayExceptionNotValidDevice` on failure), derive the model tag with
`NeuroPlayDevicesEnum.from_string`, store `match.group(2)` as `self.__id`,
and pick `channels_names` by model; the `assert_never` arm raises
`AssertionError`. -/
def mkDevice (full_name : String) : Except PyErr AbstractNeuroPlayDevice :=
  match parseDeviceName full_name with
  | none => .error .notValidDevice
  | some (model, digits) =>
    match NeuroPlayDevicesEnum.from_string model with
    | .NEUROPLAY_6C =>
      .ok ⟨full_name, model, .NEUROPLAY_6C, .str digits,
        ["O1", "T3", "Fp1", "Fp2", "T4", "O2"]⟩
    | .NEUROPLAY_8CAP =>
      .ok ⟨full_name, model, .NEUROPLAY_8CAP, .str digits,
        ["O1", "P3", "C3", "F3", "F4", "C4", "P4", "O2"]⟩
    | _ => .error .assertionError

/-! ## Connection (`AbstractNeuroPlayDevice.connect`) -/

def BLUETOOTH_UUID_EEG : String := "f0001298-0451-4000-b000-000000000000"
def BLUETOOTH_UUID_EEG_DATA : String := "f0001299-0451-4000-b000-000000000000"
def BLUETOOTH_UUID_EEG_CONTROL : String := "f000129a-0451-4000-b000-000000000000"

/-- A discovered GATT service: its UUID and its characteristics' UUIDs. -/
structure BLEService where
  uuid : String
  characteristics : List String
deriving DecidableEq, Repr

/-- The BLE-session fields of `AbstractNeuroPlayDevice` that `connect`
reads and writes. -/
structure SessionState where
  is_connected : Bool
  data_service : Option BLEService
  data_read_characteristic : Option String
  data_control_characteristic : Option String
deriving DecidableEq, Repr

/-- External transport model for `BleakClient.write_gatt_char` /
`start_notify` called with a characteristic UUID: `bleak` resolves the UUID
against the discovered services and raises a `BleakError` when no such
characteristic exists; otherwise the write is acknowledged.  (Spec §7:
transport errors surface during connect and writes.) -/
def gattCharExists (services : List BLEService) (uuid : String) : Bool :=
  services.any (fun sv => sv.characteristics.contains uuid)

/-- `AbstractNeuroPlayDevice.connect`, as a function of the device's GATT
topology.  Mirrors the source: raise `RuntimeError` when already connected;
locate the EEG service by UUID, logging and returning `False` when absent;
look up the control and data characteristics in the service, logging and
returning `False` when `not (control or read)` — that is, only when *both*
are missing; then perform the two GATT writes and the notification
subscription (each raising a transport error when its characteristic UUID
resolves to nothing), and mark the session connected.  The `finally` block
clears the session fields only when `not (service or read or control)`.
Result: `(return value, updated session state)`. -/
def connect (services : List BLEService) (s : SessionState) :
    Except PyErr (Bool × SessionState) :=
  if s.is_connected then .error (.runtimeError "Device is already connected")
  else
    match services.find? (fun sv => sv.uuid = BLUETOOTH_UUID_EEG) with
    | none =>
      -- logger.error(...); return False; `finally` clears the (already
      -- empty) fields because service, read and control are all falsy.
      .ok (false, { s with data_service := none,
                           data_read_characteristic := none,
                           data_control_characteristic := none })
    | some sv =>
      let control := if sv.characteristics.contains BLUETOOTH_UUID_EEG_CONTROL
        then some BLUETOOTH_UUID_EEG_CONTROL else none
      let read := if sv.characteristics.contains BLUETOOTH_UUID_EEG_DATA
        then some BLUETOOTH_UUID_EEG_DATA else none
      let s2 := { s with data_service := some sv,
                         data_read_characteristic := read,
                         data_control_characteristic := control }
      if control.isNone ∧ read.isNone then
        -- logger.error(...); return False; `finally` keeps the fields since
        -- the service field is truthy.
        .ok (false, s2)
      else
        -- write_gatt_char(EEG_DATA, 01 00); write_gatt_char(EEG_CONTROL,
        -- 01 01); start_notify(EEG_DATA, ...): each raises when the UUID
        -- does not resolve; `finally` keeps the fields (service truthy).
        if ¬ gattCharExists services BLUETOOTH_UUID_EEG_DATA then
          .error .bleakError
        else if ¬ gattCharExists services BLUETOOTH_UUID_EEG_CONTROL then
          .error .bleakError
        else
          .ok (true, { s2 with is_connected := true })

/-! ## Channel validation (`neuroplay_device.py`) -/

/-- `DataStatusEnum` (`enums/data_status_enum.py`). -/
inductive DataStatusEnum where
  | VALID
  | WARN
  | NOT_VALID
deriving DecidableEq, Repr

/-- The validation-related state of `NeuroPlayDevice`: the buffer
`self.__valid_buffer`, the `asyncio.Event` flags `__accumulating_event` and
`__accumulating_completed`, and the link flag. -/
structure ValidationState where
  valid_buffer : List (List ℚ)
  accumulating : Bool
  completed : Bool
  is_connected : Bool
deriving DecidableEq, Repr

/-- `NeuroPlayDevice.__start_accumulation`: `self.__accumulating_event.set()`. -/
def start_accumulation (s : ValidationState) : ValidationState :=
  { s with accumulating := true }

/-- `NeuroPlayDevice.__reset_accumulation`: `self.__valid_buffer.clear()` and
`self.__accumulating_completed.clear()` — and nothing else. -/
def reset_accumulation (s : ValidationState) : ValidationState :=
  { s with valid_buffer := [], completed := false }

/-- `NeuroPlayDevice.__complete_accumulation`: clear the accumulating event,
set the completed event. -/
def complete_accumulation (s : ValidationState) : ValidationState :=
  { s with accumulating := false, completed := true }

/-- The validation part of `NeuroPlayDevice.filtered_channels_data_handler`:
while the accumulating event is set, append the filtered sample to
`self.__valid_buffer`, and when the buffer length reaches
`self.sampling_rate` run `__complete_accumulation`. -/
def handle_filtered_validation (fs : ℕ) (s : ValidationState)
    (row : List ℚ) : ValidationState :=
  if s.accumulating then
    let s2 := { s with valid_buffer := s.valid_buffer ++ [row] }
    if fs ≤ s2.valid_buffer.length then complete_accumulation s2 else s2
  else s

/-- The `asyncio.TimeoutError` branch of `NeuroPlayDevice.validate_channels`:
when the 5-second `asyncio.wait_for` on the completed event expires, run
`__reset_accumulation` and raise
`RuntimeError("Neuroplay device is not connected.")` (the spec's
`NotConnected` kind).  Returns the state left behind and the raised error. -/
def validate_channels_on_timeout (s : ValidationState) :
    ValidationState × PyErr :=
  (reset_accumulation s,
    .runtimeError "Neuroplay device is not connected.")

/-- `np.max` over a nonempty array (the `[]` case is unreachable in the
validation path and defaulted to `0`). -/
def npMax (l : List ℚ) : ℚ :=
  match l with
  | [] => 0
  | x :: xs => xs.foldl max x

/-- `np.min` over a nonempty array (the `[]` case defaulted to `0`). -/
def npMin (l : List ℚ) : ℚ :=
  match l with
  | [] => 0
  | x :: xs => xs.foldl min x

/-- `NeuroPlayDevice.__validate_channels_data_from_buffer`: transpose the
buffer into per-channel arrays, take
`max(abs(np.max(col)), abs(np.min(col)))` per channel, and zip the channel
names with `VALID` (`≤ 250`) / `NOT_VALID` (`> 1000`) / `WARN` statuses. -/
def validate_channels_data_from_buffer (names : List String)
    (buffer : List (List ℚ)) : List (String × DataStatusEnum) :=
  let numCols := (buffer.headD []).length
  let deviations := (List.range numCols).map (fun c =>
    let col := buffer.map (fun row => row.getD c 0)
    max |npMax col| |npMin col|)
  (names.zip deviations).map (fun p =>
    (p.1,
      if p.2 ≤ 250 then DataStatusEnum.VALID
      else if 1000 < p.2 then DataStatusEnum.NOT_VALID
      else DataStatusEnum.WARN))

/-! ## Sample-rate synchronizer (`utils/data_synchronizer.py`) -/

/-- `DataSynchronizer` state: `__first_run`, `__expected_time_limit`
(`None` until seeded), and `__interval = 1 / sampling_rate`. -/
structure SyncState where
  first_run : Bool
  expected_time_limit : Option ℚ
  interval : ℚ
deriving DecidableEq, Repr

/-- The gap-fill loop of `synchronize_data`:
`while expected < current: expected += interval; buffer.append([.0] * len(data))`.
`n` is `len(data)`.  Returns the final watermark and the appended zero rows.
The guard also requires `0 < T`, which holds for every constructed
synchronizer (`T = 1 / sampling_rate`); it makes the recursion well
founded. -/
def syncLoop (T t : ℚ) (n : ℕ) (e : ℚ) : ℚ × List (List ℚ) :=
  if h : 0 < T ∧ e < t then
    let r := syncLoop T t n (e + T)
    (r.1, List.replicate n 0 :: r.2)
  else (e, [])
termination_by (⌈(t - e) / T⌉₊ : ℕ)
decreasing_by
  obtain ⟨hT, het⟩ := h
  have hq : (0 : ℚ) < (t - e) / T := div_pos (by linarith) hT
  have hrw : (t - (e + T)) / T = (t - e) / T - 1 := by
    field_simp
    ring
  rcases le_or_lt ((t - (e + T)) / T) 0 with hle | hpos
  · have h0 : ⌈(t - (e + T)) / T⌉₊ = 0 := Nat.ceil_eq_zero.mpr hle
    have h1 : 0 < ⌈(t - e) / T⌉₊ := Nat.ceil_pos.mpr hq
    omega
  · have h0 : (0 : ℚ) ≤ (t - (e + T)) / T := le_of_lt hpos
    have : ⌈(t - (e + T)) / T + 1⌉₊ = ⌈(t - (e + T)) / T⌉₊ + 1 :=
      Nat.ceil_add_one h0
    have heq : (t - e) / T = (t - (e + T)) / T + 1 := by rw [hrw]; ring
    rw [heq, this]
    omega

/-- `DataSynchronizer.synchronize_data`: on first run, seed the watermark
with the current clock; advance the watermark by one interval; if it is at
or ahead of the clock, emit just the provided sample; otherwise run the
zero-filling loop and append the provided sample.  The clock reading
`t` stands for `time.perf_counter()` (both reads on the first-run path are
modelled as the same instant). -/
def synchronize_data (s : SyncState) (t : ℚ) (data : List ℚ) :
    SyncState × List (List ℚ) :=
  let e0 : ℚ := if s.first_run then t else s.expected_time_limit.getD 0
  let e1 := e0 + s.interval
  if t ≤ e1 then
    ({ s with first_run := false, expected_time_limit := some e1 }, [data])
  else
    let r := syncLoop s.interval t data.length e1
    ({ s with first_run := false, expected_time_limit := some r.1 },
      r.2 ++ [data])

/-! ## CSV staging writers (`csv/`) and recording coordinator (`edf/`) -/

/-- The value of an instance attribute of a CSV writer. -/
inductive PyAttrVal where
  | path (p : Option String)
  | strs (l : List String)
  | bool (b : Bool)
deriving DecidableEq, Repr

/-- Python truthiness of an attribute value. -/
def PyAttrVal.truthy : PyAttrVal → Bool
  | .path none => false
  | .path (some p) => p ≠ ""
  | .strs l => l ≠ []
  | .bool b => b

/-- The instance state a `CSVDataWriter` actually carries.
`AbstractCSVWriter.__init__` assigns `self.__csv_file_path`,
`self.__columns_names` and `self.__is_recording`; because of Python name
mangling these live in the instance dictionary under the names
`_AbstractCSVWriter__csv_file_path`, `_AbstractCSVWriter__columns_names`
and `_AbstractCSVWriter__is_recording`. -/
structure CSVWriterState where
  csv_file_path : Option String
  columns_names : List String
  is_recording : Bool
deriving DecidableEq, Repr

/-- Attribute lookup on a `CSVDataWriter` instance: only the three mangled
names from `AbstractCSVWriter.__init__` resolve to values (the class
dictionaries hold only methods and the `is_recording` property); any other
name — in particular the plain `_is_recording` that
`CSVDataWriter.append_rows` reads — raises `AttributeError`. -/
def CSVWriterState.lookupAttr (w : CSVWriterState) (name : String) :
    Option PyAttrVal :=
  if name = "_AbstractCSVWriter__csv_file_path" then some (.path w.csv_file_path)
  else if name = "_AbstractCSVWriter__columns_names" then some (.strs w.columns_names)
  else if name = "_AbstractCSVWriter__is_recording" then some (.bool w.is_recording)
  else none

/-- `CSVDataWriter.append_rows(data)`: read `self._is_recording`; when truthy,
append the rows to the CSV file; otherwise raise
`RuntimeError('Recording is not started.')`.  `fileRows` models the contents
of the data CSV file.  (The attribute read itself raises `AttributeError`
when the name does not resolve.) -/
def CSVDataWriter.append_rows (w : CSVWriterState)
    (fileRows : List (List ℚ)) (data : List (List ℚ)) :
    Except PyErr (List (List ℚ)) :=
  match CSVWriterState.lookupAttr w "_is_recording" with
  | none => .error (.attributeError "_is_recording")
  | some v =>
    if v.truthy then .ok (fileRows ++ data)
    else .error (.runtimeError "Recording is not started.")

/-- The fields of `EDFCreator` that `write_data` / `write_annotation`
touch: the pending-row buffer, `self.__sample_frequency`,
`self.__is_recording`, and the staged data-CSV writer. -/
structure EDFCreator where
  buffer : List (List ℚ)
  sample_frequency : ℕ
  is_recording : Bool
  csv_data_writer : CSVWriterState
deriving DecidableEq, Repr

/-- `EDFCreator.write_data(data)`: append the sample vector to
`self.__buffer`; when `len(self.__buffer) >= self.__sample_frequency`, call
`self.__csv_data_writer.append_rows(self.__buffer)` and clear the buffer.
Returns the updated creator and data-CSV contents, or the raised error. -/
def EDFCreator.write_data (c : EDFCreator) (fileRows : List (List ℚ))
    (data : List ℚ) : Except PyErr (EDFCreator × List (List ℚ)) :=
  let buf := c.buffer ++ [data]
  if c.sample_frequency ≤ buf.length then
    match CSVDataWriter.append_rows c.csv_data_writer fileRows buf with
    | .error e => .error e
    | .ok fileRows2 => .ok ({ c with buffer := [] }, fileRows2)
  else .ok ({ c with buffer := buf }, fileRows)

/-- `EDFCreator.write_annotation(text)` (named `write_note` here): raise
`RuntimeError('Recording is not started.')` unless `self.__is_recording`;
otherwise call `append_annotation` on the annotations writer, whose body
reads the undefined attribute `self._is_recording` exactly like
`CSVDataWriter.append_rows` does (`csv_annotations_writer.py`, line 44),
raising `AttributeError`.  `ann` is the raised-or-written outcome on the
annotations CSV, modelled as `(time offset, text)` rows. -/
def EDFCreator.write_note (c : EDFCreator) (annWriter : CSVWriterState)
    (annRows : List (ℚ × String)) (now : ℚ) (text : String) :
    Except PyErr (List (ℚ × String)) :=
  if ¬ c.is_recording then
    .error (.runtimeError "Recording is not started.")
  else
    match CSVWriterState.lookupAttr annWriter "_is_recording" with
    | none => .error (.attributeError "_is_recording")
    | some v =>
      if v.truthy then .ok (annRows ++ [(now, text)])
      else .error (.runtimeError "Recording is not started.")

/-! ## Claim-side definitions (stated from the spec's words, for comparison
with the embedded code) -/

/-- The 24-bit big-endian signed reading of three bytes — "pad with one
trailing zero byte, read as 32-bit big-endian signed, then right-shift by 8,
equivalently sign-extend the top bit" (claim C1's wording). -/
def signed24 (b0 b1 b2 : ℕ) : ℤ :=
  if 2 ^ 23 ≤ (b0 * 256 + b1) * 256 + b2 then
    (((b0 * 256 + b1) * 256 + b2 : ℕ) : ℤ) - 2 ^ 24
  else (((b0 * 256 + b1) * 256 + b2 : ℕ) : ℤ)

/-- The per-slot sample value the amended claim C1 ascribes to the decoder:
`256` times the 24-bit signed value of the 3 payload bytes at offset
`2 + 3 * j` (the trailing pad byte is kept, nothing is shifted), scaled by
the magic constant. -/
def amendedSample (p : Packet) (j : ℕ) : ℚ :=
  ((256 * signed24 (p.getD (2 + 3 * j) 0) (p.getD (2 + 3 * j + 1) 0)
      (p.getD (2 + 3 * j + 2) 0) : ℤ) : ℚ) * MAGIC_MICROVOLTS_BIT

/-! ## Helper lemmas -/

/-- The decoder's 32-bit read of 3 bytes plus a zero pad byte is `256` times
the 24-bit signed value — never the 24-bit value itself. -/
lemma intFromBytes4BE_pad_eq (b0 b1 b2 : ℕ) :
    intFromBytes4BE b0 b1 b2 0 = 256 * signed24 b0 b1 b2 := by
  unfold intFromBytes4BE signed24
  split_ifs with ha hb hb <;> push_cast <;> omega

lemma decodeSample_eq_amended (p : Packet) (j : ℕ) :
    decodeSample p j = amendedSample p j := by
  unfold decodeSample decodeSampleInt amendedSample
  rw [intFromBytes4BE_pad_eq]

/-! ## Claim C1 -/

/-- Claim C1, amended: for every valid 4-packet frame, each raw sample is the
3 payload bytes at offset `2 + 3*j`, padded with one trailing zero byte and
read as a 32-bit big-endian signed integer — that is, `256` times the 24-bit
signed value, with no right shift — multiplied by `0.000186265`; the 24
samples fill the three emitted rows in row-major order. -/
theorem C1_raw_sample_decode (p0 p1 p2 p3 : Packet)
    (halign : p0.getD 0 0 &&& 0x03 = 0) :
    packet_handler .NEUROPLAY_8CAP [p0, p1, p2] p3 =
      some ([],
        [[amendedSample p0 0, amendedSample p0 1, amendedSample p0 2,
          amendedSample p0 3, amendedSample p0 4, amendedSample p0 5,
          amendedSample p1 0, amendedSample p1 1],
         [amendedSample p1 2, amendedSample p1 3, amendedSample p1 4,
          amendedSample p1 5, amendedSample p2 0, amendedSample p2 1,
          amendedSample p2 2, amendedSample p2 3],
         [amendedSample p2 4, amendedSample p2 5, amendedSample p3 0,
          amendedSample p3 1, amendedSample p3 2, amendedSample p3 3,
          amendedSample p3 4, amendedSample p3 5]]) := by
  have halign2 : p0[0]?.getD 0 &&& 0x03 = 0 := by
    simpa [List.getD_eq_getElem?_getD] using halign
  simp [packet_handler, halign2, rawSampleValues, reshape3x8, demuxChannels,
    List.range_succ, decodeSample_eq_amended]

/-- Claim C1 as stated is false on the code: a frame whose first sample
payload is `0x7F 0xFF 0xFF` decodes to `2147483392 · 0.000186265`
(≈ 400 000 µV), not to the claimed `8388607 · 0.000186265` (≈ 1562.55 µV):
the decoder never right-shifts the 32-bit read by 8. -/
theorem C1_counterexample :
    packet_handler .NEUROPLAY_8CAP
        [[0, 0, 0x7F, 0xFF, 0xFF] ++ List.replicate 15 0,
         List.replicate 20 0, List.replicate 20 0] (List.replicate 20 0)
      = some ([], [[2147483392 * MAGIC_MICROVOLTS_BIT, 0, 0, 0, 0, 0, 0, 0],
                   List.replicate 8 0, List.replicate 8 0])
    ∧ (2147483392 * MAGIC_MICROVOLTS_BIT : ℚ) ≠ 8388607 * MAGIC_MICROVOLTS_BIT := by
  constructor
  · simp [packet_handler, rawSampleValues, decodeSample, decodeSampleInt,
      intFromBytes4BE, reshape3x8, demuxChannels, deleteCols, List.range_succ,
      MAGIC_MICROVOLTS_BIT]
    norm_num
  · norm_num [MAGIC_MICROVOLTS_BIT]

/-- Witness for C1: the amended decode theorem applied to a concrete frame
whose first packet carries payload bytes `0x7F 0xFF 0xFF` in slot 0. -/
theorem C1_witness :
    (([0, 0, 0x7F, 0xFF, 0xFF] ++ List.replicate 15 0 : Packet).getD 0 0 &&& 0x03 = 0)
    ∧ packet_handler .NEUROPLAY_8CAP
        [[0, 0, 0x7F, 0xFF, 0xFF] ++ List.replicate 15 0,
         List.replicate 20 0, List.replicate 20 0] (List.replicate 20 0) =
      some ([],
        [[amendedSample ([0, 0, 0x7F, 0xFF, 0xFF] ++ List.replicate 15 0) 0,
          amendedSample ([0, 0, 0x7F, 0xFF, 0xFF] ++ List.replicate 15 0) 1,
          amendedSample ([0, 0, 0x7F, 0xFF, 0xFF] ++ List.replicate 15 0) 2,
          amendedSample ([0, 0, 0x7F, 0xFF, 0xFF] ++ List.replicate 15 0) 3,
          amendedSample ([0, 0, 0x7F, 0xFF, 0xFF] ++ List.replicate 15 0) 4,
          amendedSample ([0, 0, 0x7F, 0xFF, 0xFF] ++ List.replicate 15 0) 5,
          amendedSample (List.replicate 20 0) 0,
          amendedSample (List.replicate 20 0) 1],
         [amendedSample (List.replicate 20 0) 2,
          amendedSample (List.replicate 20 0) 3,
          amendedSample (List.replicate 20 0) 4,
          amendedSample (List.replicate 20 0) 5,
          amendedSample (List.replicate 20 0) 0,
          amendedSample (List.replicate 20 0) 1,
          amendedSample (List.replicate 20 0) 2,
          amendedSample (List.replicate 20 0) 3],
         [amendedSample (List.replicate 20 0) 4,
          amendedSample (List.replicate 20 0) 5,
          amendedSample (List.replicate 20 0) 0,
          amendedSample (List.replicate 20 0) 1,
          amendedSample (List.replicate 20 0) 2,
          amendedSample (List.replicate 20 0) 3,
          amendedSample (List.replicate 20 0) 4,
          amendedSample (List.replicate 20 0) 5]]) :=
  ⟨by decide, C1_raw_sample_decode _ _ _ _ (by decide)⟩

/-! ## Claim C5 -/

lemma headD_append_of_ne_nil {α : Type} (t : List α) (q : α) (d : α)
    (h : t ≠ []) : (t ++ [q]).headD d = t.headD d := by
  cases t with
  | nil => exact absurd rfl h
  | cons a t => rfl

lemma demux_reshape3 (ty : NeuroPlayDevicesEnum)
    (hty : ty = .NEUROPLAY_6C ∨ ty = .NEUROPLAY_8CAP) (vals : List ℚ) :
    ∃ rows, demuxChannels ty (reshape3x8 vals) = some rows ∧ rows.length = 3 := by
  rcases hty with rfl | rfl
  · exact ⟨_, rfl, by simp [deleteCols, reshape3x8]⟩
  · exact ⟨_, rfl, by simp [reshape3x8]⟩

lemma packet_handler_aligned (ty : NeuroPlayDevicesEnum)
    (hty : ty = .NEUROPLAY_6C ∨ ty = .NEUROPLAY_8CAP)
    (fifo : List Packet) (p : Packet) (hlen : (fifo ++ [p]).length = 4)
    (halign : ((fifo ++ [p]).headD []).getD 0 0 &&& 0x03 = 0) :
    ∃ rows, packet_handler ty fifo p = some ([], rows) ∧ rows.length = 3 := by
  obtain ⟨rows, hd, h3⟩ := demux_reshape3 ty hty (rawSampleValues (fifo ++ [p]))
  refine ⟨rows, ?_, h3⟩
  unfold packet_handler
  rw [if_neg (by omega), if_neg (by simpa using halign), hd]

lemma packet_handler_misaligned (ty : NeuroPlayDevicesEnum)
    (fifo : List Packet) (p : Packet) (hlen : (fifo ++ [p]).length = 4)
    (hmis : ((fifo ++ [p]).headD []).getD 0 0 &&& 0x03 ≠ 0) :
    packet_handler ty fifo p = some ((fifo ++ [p]).drop 1, []) := by
  unfold packet_handler
  rw [if_neg (by omega), if_pos (by simpa using hmis)]

/-- Claim C5: on reaching a 4-packet FIFO, an aligned first packet
(`byte0 & 0x03 = 0`) makes the decoder emit exactly 3 sample rows and clear
the FIFO; a misaligned first packet emits nothing and pops exactly the
leading packet (FIFO shrinks to 3), after which a subsequent aligned frame
still decodes to 3 rows with the FIFO cleared. -/
theorem C5_fifo_state_machine (ty : NeuroPlayDevicesEnum)
    (hty : ty = .NEUROPLAY_6C ∨ ty = .NEUROPLAY_8CAP)
    (fifo : List Packet) (p : Packet)
    (hlen : (fifo ++ [p]).length = 4) :
    (((fifo ++ [p]).headD []).getD 0 0 &&& 0x03 = 0 →
      ∃ rows, packet_handler ty fifo p = some ([], rows) ∧ rows.length = 3)
    ∧ (((fifo ++ [p]).headD []).getD 0 0 &&& 0x03 ≠ 0 →
      packet_handler ty fifo p = some ((fifo ++ [p]).drop 1, [])
        ∧ ((fifo ++ [p]).drop 1).length = 3
        ∧ ∀ q : Packet,
            (((fifo ++ [p]).drop 1).headD []).getD 0 0 &&& 0x03 = 0 →
            ∃ rows,
              packet_handler ty ((fifo ++ [p]).drop 1) q = some ([], rows)
                ∧ rows.length = 3) := by
  constructor
  · intro halign
    exact packet_handler_aligned ty hty fifo p hlen halign
  · intro hmis
    have hlen3 : ((fifo ++ [p]).drop 1).length = 3 := by
      rw [List.length_drop, hlen]
    refine ⟨packet_handler_misaligned ty fifo p hlen hmis, hlen3, ?_⟩
    intro q halign2
    have hne : (fifo ++ [p]).drop 1 ≠ [] := by
      intro hnil
      rw [hnil] at hlen3
      simp at hlen3
    apply packet_handler_aligned ty hty _ q
    · rw [List.length_append, hlen3]
      rfl
    · rw [headD_append_of_ne_nil _ _ _ hne]
      exact halign2

/-- Witness for C5: the spec's realignment scenario — the FIFO holds packets
with first-byte low bits `[1, 0, 0, 0]`; the head is popped, and after one
more aligned packet a valid frame of 3 rows decodes. -/
theorem C5_witness :
    ((([(1 : ℕ) :: List.replicate 19 0, List.replicate 20 0,
        List.replicate 20 0] ++ [List.replicate 20 0] : List Packet).length = 4)
      ∧ ((([(1 : ℕ) :: List.replicate 19 0, List.replicate 20 0,
            List.replicate 20 0] ++ [List.replicate 20 0] :
              List Packet).headD []).getD 0 0 &&& 0x03 ≠ 0))
    ∧ (((([(1 : ℕ) :: List.replicate 19 0, List.replicate 20 0,
          List.replicate 20 0] ++ [List.replicate 20 0] :
            List Packet).headD []).getD 0 0 &&& 0x03 = 0 →
        ∃ rows, packet_handler .NEUROPLAY_6C
            [(1 : ℕ) :: List.replicate 19 0, List.replicate 20 0,
              List.replicate 20 0] (List.replicate 20 0) = some ([], rows)
          ∧ rows.length = 3)
      ∧ ((([(1 : ℕ) :: List.replicate 19 0, List.replicate 20 0,
            List.replicate 20 0] ++ [List.replicate 20 0] :
              List Packet).headD []).getD 0 0 &&& 0x03 ≠ 0 →
        packet_handler .NEUROPLAY_6C
            [(1 : ℕ) :: List.replicate 19 0, List.replicate 20 0,
              List.replicate 20 0] (List.replicate 20 0)
          = some (([(1 : ℕ) :: List.replicate 19 0, List.replicate 20 0,
              List.replicate 20 0] ++ [List.replicate 20 0] :
                List Packet).drop 1, [])
        ∧ (([(1 : ℕ) :: List.replicate 19 0, List.replicate 20 0,
            List.replicate 20 0] ++ [List.replicate 20 0] :
              List Packet).drop 1).length = 3
        ∧ ∀ q : Packet,
            ((([(1 : ℕ) :: List.replicate 19 0, List.replicate 20 0,
              List.replicate 20 0] ++ [List.replicate 20 0] :
                List Packet).drop 1).headD []).getD 0 0 &&& 0x03 = 0 →
            ∃ rows,
              packet_handler .NEUROPLAY_6C
                  (([(1 : ℕ) :: List.replicate 19 0, List.replicate 20 0,
                    List.replicate 20 0] ++ [List.replicate 20 0] :
                      List Packet).drop 1) q = some ([], rows)
                ∧ rows.length = 3)) :=
  ⟨⟨by decide, by decide⟩,
    C5_fifo_state_machine .NEUROPLAY_6C (Or.inl rfl) _ _ (by decide)⟩

/-! ## Claim C8 -/

/-- Claim C8: on the 6-channel model, `np.delete(·, [6, 1], axis=1)` keeps
exactly the raw columns `{0, 2, 3, 4, 5, 7}` of a 3×8 decoded matrix, in
order, producing a 3×6 matrix whose columns map to the labels
`["O1", "T3", "Fp1", "Fp2", "T4", "O2"]`; the 8-channel model keeps all
8 columns. -/
theorem C8_channel_demux (m : List (List ℚ)) (hlen : m.length = 3)
    (hrow : ∀ row ∈ m, row.length = 8) :
    demuxChannels .NEUROPLAY_6C m
        = some (m.map (fun row =>
            [row.getD 0 0, row.getD 2 0, row.getD 3 0, row.getD 4 0,
             row.getD 5 0, row.getD 7 0]))
      ∧ (∀ rows, demuxChannels .NEUROPLAY_6C m = some rows →
          rows.length = 3 ∧ ∀ row ∈ rows, row.length = 6)
      ∧ demuxChannels .NEUROPLAY_8CAP m = some m
      ∧ Except.map AbstractNeuroPlayDevice.channels_names
          (mkDevice "NeuroPlay-6C (1)")
            = .ok ["O1", "T3", "Fp1", "Fp2", "T4", "O2"] := by
  have hcols : ∀ row : List ℚ, row.length = 8 →
      ((row.enum.filter (fun p => p.1 ∉ ([6, 1] : List ℕ))).map Prod.snd)
        = [row.getD 0 0, row.getD 2 0, row.getD 3 0, row.getD 4 0,
           row.getD 5 0, row.getD 7 0] := by
    intro row h8
    match row, h8 with
    | [a, b, c, d, e, f, g, h], _ => rfl
  refine ⟨?_, ?_, rfl, rfl⟩
  · show some (deleteCols [6, 1] m) = _
    unfold deleteCols
    rw [List.map_congr_left (fun row hr => hcols row (hrow row hr))]
  · intro rows hrows
    have : rows = deleteCols [6, 1] m := by
      simpa [demuxChannels] using hrows.symm
    subst this
    constructor
    · simp [deleteCols, hlen]
    · intro row hr
      unfold deleteCols at hr
      obtain ⟨row0, hr0, hrr⟩ := List.mem_map.mp hr
      rw [← hrr, hcols row0 (hrow row0 hr0)]
      rfl

/-- Witness for C8: the demux theorem applied to the concrete 3×8 matrix
whose entries are `0..23`. -/
theorem C8_witness :
    (([[0, 1, 2, 3, 4, 5, 6, 7], [8, 9, 10, 11, 12, 13, 14, 15],
       [16, 17, 18, 19, 20, 21, 22, 23]] : List (List ℚ)).length = 3
      ∧ ∀ row ∈ ([[0, 1, 2, 3, 4, 5, 6, 7], [8, 9, 10, 11, 12, 13, 14, 15],
          [16, 17, 18, 19, 20, 21, 22, 23]] : List (List ℚ)), row.length = 8)
    ∧ demuxChannels .NEUROPLAY_6C
        [[0, 1, 2, 3, 4, 5, 6, 7], [8, 9, 10, 11, 12, 13, 14, 15],
         [16, 17, 18, 19, 20, 21, 22, 23]]
      = some ((([[0, 1, 2, 3, 4, 5, 6, 7], [8, 9, 10, 11, 12, 13, 14, 15],
          [16, 17, 18, 19, 20, 21, 22, 23]] : List (List ℚ))).map
            (fun row =>
              [row.getD 0 0, row.getD 2 0, row.getD 3 0, row.getD 4 0,
               row.getD 5 0, row.getD 7 0])) :=
  ⟨⟨rfl, by decide⟩,
    (C8_channel_demux _ (by decide) (by decide)).1⟩

/-! ## Claim C9 -/

/-- Claim C9 evaluated at the failing input: for the advertisement name
`"NeuroPlay-6C (42)"` the constructor succeeds, but the stored `id` is the
*string* `"42"` — `match.group(2)` is assigned without conversion, despite
the `self.__id: int` annotation and the `id` property's `-> int` return
type — so the id is not an integer; a name without the
`"<model> (<id>)"` shape raises `NeuroPlayExceptionNotValidDevice`. -/
theorem C9_device_id :
    mkDevice "NeuroPlay-6C (42)"
        = .ok ⟨"NeuroPlay-6C (42)", "NeuroPlay-6C", .NEUROPLAY_6C, .str "42",
          ["O1", "T3", "Fp1", "Fp2", "T4", "O2"]⟩
      ∧ (∀ n : ℤ, (PyScalar.str "42" : PyScalar) ≠ PyScalar.int n)
      ∧ mkDevice "NeuroPlay-6C 42" = .error .notValidDevice
      ∧ mkDevice "NeuroPlay-6C ()" = .error .notValidDevice :=
  ⟨rfl, fun n h => PyScalar.noConfusion h, rfl, rfl⟩

/-! ## Claim C4 -/

/-- Claim C4 as stated is false on the code.  With the EEG service present
but the control characteristic absent, `connect` does not fail with a
`MissingCharacteristic` error: the `not (control or read)` guard passes
(only *both* missing would fail it) and the failure that eventually stops
the connect is the transport error of the GATT write to the missing UUID.
With no EEG service at all, `connect` does not fail with a `MissingService`
error either: it logs and returns `False`. -/
theorem C4_counterexample :
    connect [⟨BLUETOOTH_UUID_EEG, [BLUETOOTH_UUID_EEG_DATA]⟩]
        ⟨false, none, none, none⟩ = .error .bleakError
    ∧ connect [⟨BLUETOOTH_UUID_EEG, [BLUETOOTH_UUID_EEG_DATA]⟩]
        ⟨false, none, none, none⟩ ≠ .error .missingCharacteristic
    ∧ connect [] ⟨false, none, none, none⟩
        = .ok (false, ⟨false, none, none, none⟩)
    ∧ connect [] ⟨false, none, none, none⟩ ≠ .error .missingService := by
  refine ⟨by decide, by decide, by decide, by decide⟩

/-- Claim C4, amended: when the EEG service is absent, `connect` returns
`False` (raising nothing) and clears the session fields; when the service is
present but *both* characteristics are missing, it returns `False`; a
session state is marked connected exactly when `connect` returns `True`; and
the only exception a disconnected session's `connect` can raise is a
transport (`bleak`) error — never `MissingService` or
`MissingCharacteristic`.  In every failing case the session stays
disconnected. -/
theorem C4_connect_behaviour (services : List BLEService) (s : SessionState)
    (hconn : s.is_connected = false) :
    (services.find? (fun sv => sv.uuid = BLUETOOTH_UUID_EEG) = none →
      connect services s
        = .ok (false, { s with data_service := none,
                               data_read_characteristic := none,
                               data_control_characteristic := none }))
    ∧ (∀ sv, services.find? (fun sv => sv.uuid = BLUETOOTH_UUID_EEG) = some sv →
        sv.characteristics.contains BLUETOOTH_UUID_EEG_CONTROL = false →
        sv.characteristics.contains BLUETOOTH_UUID_EEG_DATA = false →
        connect services s
          = .ok (false, { s with data_service := some sv,
                                 data_read_characteristic := none,
                                 data_control_characteristic := none }))
    ∧ (∀ r s2, connect services s = .ok (r, s2) → s2.is_connected = r)
    ∧ (∀ e, connect services s = .error e → e = .bleakError) := by
  refine ⟨?_, ?_, ?_, ?_⟩
  · intro hnone
    unfold connect
    rw [hconn, hnone]
    rfl
  · intro sv hsv hc hd
    have hc2 : BLUETOOTH_UUID_EEG_CONTROL ∉ sv.characteristics := by
      simpa using hc
    have hd2 : BLUETOOTH_UUID_EEG_DATA ∉ sv.characteristics := by
      simpa using hd
    unfold connect
    rw [hconn, hsv]
    simp [hc2, hd2]
  · intro r s2 hok
    unfold connect at hok
    rw [hconn] at hok
    rcases hfind : services.find? (fun sv => sv.uuid = BLUETOOTH_UUID_EEG)
      with _ | sv <;> rw [hfind] at hok <;>
      simp only [Bool.false_eq_true, if_false] at hok
    · injection hok with h
      injection h with hr hs
      subst hr
      subst hs
      rfl
    · split_ifs at hok <;>
        first
          | exact Except.noConfusion hok
          | (injection hok with h
             injection h with hr hs
             subst hr
             subst hs
             first
               | exact hconn
               | rfl)
  · intro e herr
    unfold connect at herr
    rw [hconn] at herr
    rcases hfind : services.find? (fun sv => sv.uuid = BLUETOOTH_UUID_EEG)
      with _ | sv <;> rw [hfind] at herr <;>
      simp only [Bool.false_eq_true, if_false] at herr
    · exact Except.noConfusion herr
    · split_ifs at herr <;>
        first
          | exact Except.noConfusion herr
          | (injection herr with h
             exact h.symm)

/-- Witness for C4: the amended connect theorem applied to the empty
topology and to a full topology (service with both characteristics), where
connect succeeds and marks the session connected. -/
theorem C4_witness :
    ((⟨false, none, none, none⟩ : SessionState).is_connected = false)
    ∧ (([] : List BLEService).find? (fun sv => sv.uuid = BLUETOOTH_UUID_EEG)
          = none →
        connect [] ⟨false, none, none, none⟩
          = .ok (false, { (⟨false, none, none, none⟩ : SessionState) with
                          data_service := none,
                          data_read_characteristic := none,
                          data_control_characteristic := none })) :=
  ⟨rfl, (C4_connect_behaviour [] ⟨false, none, none, none⟩ rfl).1⟩

/-! ## Claim C3 -/

/-- Claim C3 as stated is false on the code: after the 5-second timeout,
`__reset_accumulation` clears the buffer and the "complete" flag but does
*not* clear the "accumulating" flag (`__accumulating_event` stays set), so
the sample path keeps appending filtered samples to the buffer. -/
theorem C3_counterexample :
    (validate_channels_on_timeout
        (start_accumulation ⟨[], false, false, true⟩)).2
      = PyErr.runtimeError "Neuroplay device is not connected."
    ∧ (validate_channels_on_timeout
        (start_accumulation ⟨[], false, false, true⟩)).1.valid_buffer = []
    ∧ (validate_channels_on_timeout
        (start_accumulation ⟨[], false, false, true⟩)).1.completed = false
    ∧ (validate_channels_on_timeout
        (start_accumulation ⟨[], false, false, true⟩)).1.accumulating = true
    ∧ (handle_filtered_validation 125
        (validate_channels_on_timeout
          (start_accumulation ⟨[], false, false, true⟩)).1
        (List.replicate 6 0)).valid_buffer = [List.replicate 6 0] :=
  ⟨rfl, rfl, rfl, rfl, rfl⟩

/-- Claim C3, amended: on the validation timeout the code raises the
`NotConnected` `RuntimeError` and tears down the buffer and the "complete"
flag, but the "accumulating" flag is left untouched — in particular it stays
set, and the sample path continues appending filtered samples to the
(now-cleared) buffer. -/
theorem C3_timeout_teardown (s : ValidationState)
    (hacc : s.accumulating = true) :
    (validate_channels_on_timeout s).2
        = PyErr.runtimeError "Neuroplay device is not connected."
      ∧ (validate_channels_on_timeout s).1.valid_buffer = []
      ∧ (validate_channels_on_timeout s).1.completed = false
      ∧ (validate_channels_on_timeout s).1.accumulating = true
      ∧ ∀ (row : List ℚ) (fs : ℕ),
          (handle_filtered_validation fs (validate_channels_on_timeout s).1
            row).valid_buffer = [row] := by
  refine ⟨rfl, rfl, rfl, hacc, ?_⟩
  intro row fs
  unfold handle_filtered_validation
  split
  · dsimp only
    split <;> rfl
  · next hfalse => exact absurd hacc hfalse

/-- Witness for C3: the teardown theorem applied to the state reached by
`__start_accumulation` from a fresh connected device. -/
theorem C3_witness :
    ((start_accumulation ⟨[], false, false, true⟩).accumulating = true)
    ∧ ((validate_channels_on_timeout
          (start_accumulation ⟨[], false, false, true⟩)).2
        = PyErr.runtimeError "Neuroplay device is not connected."
      ∧ (validate_channels_on_timeout
          (start_accumulation ⟨[], false, false, true⟩)).1.valid_buffer = []
      ∧ (validate_channels_on_timeout
          (start_accumulation ⟨[], false, false, true⟩)).1.completed = false
      ∧ (validate_channels_on_timeout
          (start_accumulation ⟨[], false, false, true⟩)).1.accumulating = true
      ∧ ∀ (row : List ℚ) (fs : ℕ),
          (handle_filtered_validation fs
            (validate_channels_on_timeout
              (start_accumulation ⟨[], false, false, true⟩)).1
            row).valid_buffer = [row]) :=
  ⟨rfl, C3_timeout_teardown _ rfl⟩

/-! ## Claim C6 -/

lemma syncLoop_spec (T t : ℚ) (n : ℕ) (hT : 0 < T) :
    ∀ N : ℕ, ∀ e : ℚ, ⌈(t - e) / T⌉₊ ≤ N →
      ∃ k : ℕ, syncLoop T t n e
        = (e + k * T, List.replicate k (List.replicate n 0)) := by
  intro N
  induction N with
  | zero =>
    intro e hN
    have hnot : ¬ (0 < T ∧ e < t) := by
      rintro ⟨-, het⟩
      have hq : (0 : ℚ) < (t - e) / T := div_pos (by linarith) hT
      have : 0 < ⌈(t - e) / T⌉₊ := Nat.ceil_pos.mpr hq
      omega
    rw [syncLoop, dif_neg hnot]
    exact ⟨0, by simp⟩
  | succ N ih =>
    intro e hN
    by_cases hcond : 0 < T ∧ e < t
    · have hdec : ⌈(t - (e + T)) / T⌉₊ ≤ N := by
        have het := hcond.2
        have hq : (0 : ℚ) < (t - e) / T := div_pos (by linarith) hT
        have hrw : (t - (e + T)) / T = (t - e) / T - 1 := by
          field_simp
          ring
        rcases le_or_lt ((t - (e + T)) / T) 0 with hle | hpos
        · have h0 : ⌈(t - (e + T)) / T⌉₊ = 0 := Nat.ceil_eq_zero.mpr hle
          omega
        · have h0 : (0 : ℚ) ≤ (t - (e + T)) / T := le_of_lt hpos
          have hceil : ⌈(t - (e + T)) / T + 1⌉₊ = ⌈(t - (e + T)) / T⌉₊ + 1 :=
            Nat.ceil_add_one h0
          have heq : (t - e) / T = (t - (e + T)) / T + 1 := by
            rw [hrw]
            ring
          rw [heq, hceil] at hN
          omega
      obtain ⟨k, hk⟩ := ih (e + T) hdec
      rw [syncLoop, dif_pos hcond, hk]
      refine ⟨k + 1, Prod.ext ?_ ?_⟩
      · show e + T + (k : ℚ) * T = e + ((k : ℕ) + 1 : ℕ) * T
        push_cast
        ring
      · show List.replicate n 0 :: List.replicate k (List.replicate n 0)
          = List.replicate (k + 1) (List.replicate n 0)
        rw [List.replicate_succ]
    · rw [syncLoop, dif_neg hcond]
      exact ⟨0, by simp⟩

/-- Claim C6: once the watermark is seeded (`first_run` is off and
`__expected_time_limit` holds a value), every `synchronize_data` call
returns `k` gap-fill zero vectors of the sample's length followed by the
provided sample — never an empty list, never a retraction — and the
watermark advances to `e + (k + 1) · T`, an increase of at least one
interval `T`. -/
theorem C6_synchronizer (s : SyncState) (t : ℚ) (data : List ℚ) (e : ℚ)
    (h1 : s.first_run = false) (h2 : s.expected_time_limit = some e)
    (h3 : 0 < s.interval) :
    ∃ k : ℕ,
      (synchronize_data s t data).2
          = List.replicate k (List.replicate data.length 0) ++ [data]
        ∧ (synchronize_data s t data).1.expected_time_limit
            = some (e + (k + 1) * s.interval)
        ∧ e + s.interval ≤ e + (k + 1) * s.interval := by
  unfold synchronize_data
  rw [h1, h2]
  simp only [Bool.false_eq_true, if_false, Option.getD_some]
  by_cases hbr : t ≤ e + s.interval
  · rw [if_pos hbr]
    exact ⟨0, by simp, by norm_num, by norm_num⟩
  · rw [if_neg hbr]
    obtain ⟨k, hk⟩ := syncLoop_spec s.interval t data.length h3
      ⌈(t - (e + s.interval)) / s.interval⌉₊ (e + s.interval) le_rfl
    refine ⟨k, ?_, ?_, ?_⟩
    · simp [hk]
    · simp only [hk]
      congr 1
      push_cast
      ring
    · have hk0 : (0 : ℚ) ≤ (k : ℚ) * s.interval :=
        mul_nonneg (by positivity) (le_of_lt h3)
      have : ((k : ℚ) + 1) * s.interval = k * s.interval + s.interval := by
        ring
      rw [this]
      linarith

/-- Witness for C6: the synchronizer theorem at the spec's gap-fill
scenario — watermark at 0, interval `T = 1/125` (8 ms), next sample at
`t = 1/40` (25 ms). -/
theorem C6_witness :
    ((⟨false, some 0, 1 / 125⟩ : SyncState).first_run = false
      ∧ (⟨false, some 0, 1 / 125⟩ : SyncState).expected_time_limit = some 0
      ∧ (0 : ℚ) < (⟨false, some 0, 1 / 125⟩ : SyncState).interval)
    ∧ ∃ k : ℕ,
        (synchronize_data ⟨false, some 0, 1 / 125⟩ (1 / 40)
            [1, 2, 3, 4, 5, 6]).2
            = List.replicate k
                (List.replicate ([1, 2, 3, 4, 5, 6] : List ℚ).length 0)
              ++ [[1, 2, 3, 4, 5, 6]]
          ∧ (synchronize_data ⟨false, some 0, 1 / 125⟩ (1 / 40)
              [1, 2, 3, 4, 5, 6]).1.expected_time_limit
              = some (0 + (k + 1) * (⟨false, some 0, 1 / 125⟩ : SyncState).interval)
          ∧ (0 : ℚ) + (⟨false, some 0, 1 / 125⟩ : SyncState).interval
              ≤ 0 + (k + 1) * (⟨false, some 0, 1 / 125⟩ : SyncState).interval :=
  ⟨⟨rfl, rfl, by norm_num⟩,
    C6_synchronizer ⟨false, some 0, 1 / 125⟩ (1 / 40) [1, 2, 3, 4, 5, 6] 0
      rfl rfl (by norm_num)⟩

/-! ## Claim C7 -/

/-- Claim C7: the per-channel validation status depends only on
`m_c = max(|max(buffer[c])|, |min(buffer[c])|)` and is `VALID` when
`m_c ≤ 250`, `NOT_VALID` when `m_c > 1000`, `WARN` otherwise; a 125-sample
buffer whose per-channel extreme magnitudes are
`[100, 300, 1500, 250, 999, 1000]` classifies as
`[VALID, WARN, NOT_VALID, VALID, WARN, WARN]`. -/
theorem C7_validation_statuses :
    (∀ (names : List String) (buffer : List (List ℚ)),
      validate_channels_data_from_buffer names buffer
        = (names.zip ((List.range (buffer.headD []).length).map (fun c =>
            max |npMax (buffer.map (fun row => row.getD c 0))|
                |npMin (buffer.map (fun row => row.getD c 0))|))).map
            (fun p => (p.1,
              if p.2 ≤ 250 then DataStatusEnum.VALID
              else if 1000 < p.2 then DataStatusEnum.NOT_VALID
              else DataStatusEnum.WARN)))
    ∧ validate_channels_data_from_buffer
        ["O1", "T3", "Fp1", "Fp2", "T4", "O2"]
        ([[100, -300, 1500, 250, 999, -1000]]
          ++ List.replicate 124 (List.replicate 6 0))
      = [("O1", DataStatusEnum.VALID), ("T3", DataStatusEnum.WARN),
         ("Fp1", DataStatusEnum.NOT_VALID), ("Fp2", DataStatusEnum.VALID),
         ("T4", DataStatusEnum.WARN), ("O2", DataStatusEnum.WARN)] := by
  constructor
  · intro names buffer
    rfl
  · show validate_channels_data_from_buffer _ _ = _
    set_option maxRecDepth 100000 in decide

/-! ## Claim C2 -/

/-- Claim C2 evaluated at the failing input: with 124 rows already buffered
in an active recording, the next `write_data` reaches `fs = 125` and calls
`CSVDataWriter.append_rows`, which reads the undefined attribute
`self._is_recording` (the base class only defines the name-mangled
`_AbstractCSVWriter__is_recording`) and therefore raises `AttributeError`
instead of flushing the rows to the data CSV. -/
theorem C2_flush_raises :
    EDFCreator.write_data
        ⟨List.replicate 124 (List.replicate 6 0), 125, true,
          ⟨some "data.csv", ["O1", "T3", "Fp1", "Fp2", "T4", "O2"], true⟩⟩
        [] (List.replicate 6 0)
      = .error (.attributeError "_is_recording")
    ∧ CSVWriterState.lookupAttr
        ⟨some "data.csv", ["O1", "T3", "Fp1", "Fp2", "T4", "O2"], true⟩
        "_is_recording" = none
    ∧ (⟨some "data.csv", ["O1", "T3", "Fp1", "Fp2", "T4", "O2"], true⟩ :
        CSVWriterState).is_recording = true
    ∧ CSVWriterState.lookupAttr
        ⟨some "data.csv", ["O1", "T3", "Fp1", "Fp2", "T4", "O2"], true⟩
        "_AbstractCSVWriter__is_recording" = some (.bool true) := by
  refine ⟨?_, by decide, rfl, by decide⟩
  set_option maxRecDepth 10000 in rfl

/-! ## Claim C10 -/

/-- Claim C10: `EDFCreator.write_data` checks no recording-state
precondition — while recording is inactive and the buffer stays below
`fs`, the sample is appended silently and nothing is raised — whereas
`write_annotation` in the same situation raises
`RuntimeError('Recording is not started.')`. -/
theorem C10_write_data_unguarded (c : EDFCreator) (fileRows : List (List ℚ))
    (v : List ℚ) (annW : CSVWriterState) (annRows : List (ℚ × String))
    (now : ℚ) (txt : String)
    (hrec : c.is_recording = false)
    (hlen : c.buffer.length + 1 < c.sample_frequency) :
    EDFCreator.write_data c fileRows v
        = .ok ({ c with buffer := c.buffer ++ [v] }, fileRows)
      ∧ EDFCreator.write_note c annW annRows now txt
        = .error (.runtimeError "Recording is not started.") := by
  constructor
  · unfold EDFCreator.write_data
    rw [if_neg]
    rw [List.length_append]
    simpa using hlen
  · unfold EDFCreator.write_note
    rw [if_pos]
    simp [hrec]

/-- Witness for C10: a fresh non-recording coordinator with an empty buffer
accepts `write_data` silently while `write_annotation` raises. -/
theorem C10_witness :
    ((⟨[], 125, false, ⟨none, ["O1"], false⟩⟩ : EDFCreator).is_recording
        = false
      ∧ (⟨[], 125, false, ⟨none, ["O1"], false⟩⟩ :
          EDFCreator).buffer.length + 1
        < (⟨[], 125, false, ⟨none, ["O1"], false⟩⟩ :
            EDFCreator).sample_frequency)
    ∧ EDFCreator.write_data ⟨[], 125, false, ⟨none, ["O1"], false⟩⟩ [] [1, 2]
        = .ok ({ (⟨[], 125, false, ⟨none, ["O1"], false⟩⟩ : EDFCreator) with
            buffer := ([] : List (List ℚ)) ++ [[1, 2]] }, [])
    ∧ EDFCreator.write_note ⟨[], 125, false, ⟨none, ["O1"], false⟩⟩
        ⟨none, ["time", "text"], false⟩ [] 0 "marker"
        = .error (.runtimeError "Recording is not started.") :=
  ⟨⟨rfl, by decide⟩,
    (C10_write_data_unguarded _ _ _ ⟨none, ["time", "text"], false⟩ [] 0
      "marker" rfl (by decide)).1,
    (C10_write_data_unguarded _ ([] : List (List ℚ)) ([1, 2] : List ℚ)
      ⟨none, ["time", "text"], false⟩ [] 0 "marker" rfl (by decide)).2⟩

end NeuroPlay
